import Mathlib

/-!
Verification of the people router of the Padel_Galleries face-identity engine
(`src/python/routers/people.py`) against its specification.

The router's mutating endpoints are embedded as pure functions over an explicit
database state.  A `photo_faces` row is a `FaceRecord`; the `people` table is
the list of person ids.  Each handler returns the HTTP-level result, the
post-call database state, the number of SQL UPDATE statements the router issued,
and the number of index-rebuild executions (`FaceRecognitionService.rebuild_players_index`
invocations) it triggered.  Whether a triggered rebuild succeeds is an external
event, passed in as the `rebuildOk` flag; in the Python code a failing rebuild
raises inside the handler's `try` block and is converted to an HTTP 500 response.
-/

/-- A row of the `photo_faces` table, restricted to the fields the router
mutates.  `recognition_confidence` is a nullable float only ever written as
`1.0` or `NULL` by this router; it is modelled as an optional rational. -/
structure FaceRecord where
  id : Nat
  photo_id : Nat
  person_id : Option Nat
  verified : Bool
  recognition_confidence : Option ℚ
deriving DecidableEq

/-- The database state the router observes: the set of person ids in the
`people` table and the `photo_faces` rows. -/
structure DBState where
  persons : List Nat
  faces : List FaceRecord
deriving DecidableEq

/-- The HTTP-level outcome of a handler: a success payload or an
`HTTPException` with a status code. -/
inductive ApiResp (α : Type) where
  | ok : α → ApiResp α
  | error : Nat → ApiResp α
deriving DecidableEq

/-- Everything observable about one handler call: its HTTP result, the
database state after the call, how many UPDATE statements the router ran, and
how many index-rebuild executions it triggered. -/
structure HandlerOutcome (α : Type) where
  result : ApiResp α
  state : DBState
  updates : Nat
  rebuilds : Nat
deriving DecidableEq

/-- The WHERE clause `person_id = $1 AND photo_id = $2` shared by
`verify-on-photo` and `unlink-from-photo`. -/
def faceMatch (p ph : Nat) (r : FaceRecord) : Bool :=
  r.person_id == some p && r.photo_id == ph

/-- The WHERE clause `person_id = $1 AND photo_id = ANY($2::uuid[])` of
`batch-verify-on-photos`. -/
def batchMatch (p : Nat) (phs : List Nat) (r : FaceRecord) : Bool :=
  r.person_id == some p && phs.contains r.photo_id

/-- The SET clause `verified = true, recognition_confidence = 1.0`. -/
def setVerifiedRow (r : FaceRecord) : FaceRecord :=
  { r with verified := true, recognition_confidence := some 1 }

/-- The SET clause `person_id = NULL, verified = false,
recognition_confidence = NULL`. -/
def clearRow (r : FaceRecord) : FaceRecord :=
  { r with person_id := none, verified := false, recognition_confidence := none }

/-- Modelled from the spec: `PostgresClient.delete_person` is not under `src/`
(only its caller is).  Per spec section 4.1, `deletePerson(personId)` fails
(returns no success) if the person is absent and otherwise removes the person;
per section 3 the deletion cascades, detaching every FaceRecord that references
the person.  Returns the success flag the router inspects, with the resulting
state. -/
def db_delete_person (st : DBState) (p : Nat) : Bool × DBState :=
  if st.persons.contains p then
    (true,
     { persons := st.persons.filter (fun q => q != p),
       faces := st.faces.map (fun r => if r.person_id == some p then clearRow r else r) })
  else
    (false, st)

/-- Handler `DELETE /api/people/{person_id}` (`delete_person`):
calls `db.delete_person`; on a falsy result raises HTTP 404 before any rebuild;
otherwise rebuilds the index once.  A rebuild failure is caught by the generic
`except` clause and re-raised as HTTP 500. -/
def delete_person (st : DBState) (rebuildOk : Bool) (person_id : Nat) :
    HandlerOutcome Unit :=
  let res := db_delete_person st person_id
  if res.fst then
    if rebuildOk then
      { result := .ok (), state := res.snd, updates := 0, rebuilds := 1 }
    else
      { result := .error 500, state := res.snd, updates := 0, rebuilds := 1 }
  else
    { result := .error 404, state := res.snd, updates := 0, rebuilds := 0 }

/-- Handler `POST /api/people/{person_id}/verify-on-photo`
(`verify_person_on_photo`): one UPDATE setting `verified = true,
recognition_confidence = 1.0` on rows matching `person_id = $1 AND
photo_id = $2`, RETURNING the matched ids; an empty result raises HTTP 404;
otherwise one rebuild, whose failure becomes HTTP 500. -/
def verify_person_on_photo (st : DBState) (rebuildOk : Bool)
    (person_id photo_id : Nat) : HandlerOutcome Bool :=
  let matched := st.faces.filter (faceMatch person_id photo_id)
  let st' : DBState :=
    { st with
      faces := st.faces.map
        (fun r => if faceMatch person_id photo_id r then setVerifiedRow r else r) }
  if matched.isEmpty then
    { result := .error 404, state := st', updates := 1, rebuilds := 0 }
  else if rebuildOk then
    { result := .ok true, state := st', updates := 1, rebuilds := 1 }
  else
    { result := .error 500, state := st', updates := 1, rebuilds := 1 }

/-- Handler `POST /api/people/{person_id}/batch-verify-on-photos`
(`batch_verify_person_on_photos`): an empty id list returns
`verified_count = 0` at once with no UPDATE; otherwise one multi-row UPDATE
with `photo_id = ANY($2)`, then one rebuild only when `verified_count > 0`;
a rebuild failure becomes HTTP 500. -/
def batch_verify_person_on_photos (st : DBState) (rebuildOk : Bool)
    (person_id : Nat) (photo_ids : List Nat) : HandlerOutcome Nat :=
  if photo_ids.isEmpty then
    { result := .ok 0, state := st, updates := 0, rebuilds := 0 }
  else
    let matched := st.faces.filter (batchMatch person_id photo_ids)
    let st' : DBState :=
      { st with
        faces := st.faces.map
          (fun r => if batchMatch person_id photo_ids r then setVerifiedRow r else r) }
    if matched.length > 0 then
      if rebuildOk then
        { result := .ok matched.length, state := st', updates := 1, rebuilds := 1 }
      else
        { result := .error 500, state := st', updates := 1, rebuilds := 1 }
    else
      { result := .ok matched.length, state := st', updates := 1, rebuilds := 0 }

/-- Handler `POST /api/people/{person_id}/unlink-from-photo`
(`unlink_person_from_photo`): one UPDATE clearing `person_id`, `verified` and
`recognition_confidence` on rows matching `person_id = $1 AND photo_id = $2`,
RETURNING the matched ids; `unlinked_count` is their number; one rebuild only
when `unlinked_count > 0`; never raises 404.  A rebuild failure becomes
HTTP 500. -/
def unlink_person_from_photo (st : DBState) (rebuildOk : Bool)
    (person_id photo_id : Nat) : HandlerOutcome Nat :=
  let matched := st.faces.filter (faceMatch person_id photo_id)
  let st' : DBState :=
    { st with
      faces := st.faces.map
        (fun r => if faceMatch person_id photo_id r then clearRow r else r) }
  if matched.length > 0 then
    if rebuildOk then
      { result := .ok matched.length, state := st', updates := 1, rebuilds := 1 }
    else
      { result := .error 500, state := st', updates := 1, rebuilds := 1 }
  else
    { result := .ok matched.length, state := st', updates := 1, rebuilds := 0 }

/-- Validation used by the cluster-promotion store call: the face list is
non-empty and every referenced face exists and is currently unassigned. -/
def clusterValid (st : DBState) (face_ids : List Nat) : Bool :=
  !face_ids.isEmpty &&
    face_ids.all (fun fid => st.faces.any (fun r => r.id == fid && r.person_id == none))

/-- Modelled from the spec: `PostgresClient.create_person_from_cluster` is not
under `src/` (only its caller, the `POST /api/people/from-cluster` handler, is).
Per spec section 4.4, `createPersonFromCluster` validates that every referenced
face is a known, currently-unassigned FaceRecord (failing otherwise), creates a
new Person, atomically assigns and verifies all member records to it, and then
requests one index rebuild.  `none` signals the validation failure. -/
def db_create_person_from_cluster (st : DBState) (new_person_id : Nat)
    (face_ids : List Nat) : Option DBState :=
  if clusterValid st face_ids then
    some
      { persons := new_person_id :: st.persons,
        faces := st.faces.map
          (fun r =>
            if face_ids.contains r.id then
              { r with person_id := some new_person_id, verified := true,
                       recognition_confidence := some 1 }
            else r) }
  else
    none

/-- Handler `POST /api/people/from-cluster` (`create_person_from_cluster`):
delegates entirely to the store call; the router itself issues no UPDATE and no
rebuild (the one rebuild execution on success happens inside the spec-modelled
store call).  Any exception from the store call becomes HTTP 500. -/
def create_person_from_cluster (st : DBState) (new_person_id : Nat)
    (face_ids : List Nat) : HandlerOutcome Nat :=
  match db_create_person_from_cluster st new_person_id face_ids with
  | some st' => { result := .ok new_person_id, state := st', updates := 0, rebuilds := 1 }
  | none => { result := .error 500, state := st, updates := 0, rebuilds := 0 }

/-- The FaceRecord invariant of spec section 3, per row:
`verified == true` implies `person_id != null` and
`recognition_confidence == 1.0`. -/
def RecInv (r : FaceRecord) : Prop :=
  r.verified = true → r.person_id ≠ none ∧ r.recognition_confidence = some 1

instance (r : FaceRecord) : Decidable (RecInv r) := by
  unfold RecInv; infer_instance

/-- The FaceRecord invariant over a whole database state. -/
def FaceInv (st : DBState) : Prop :=
  ∀ r ∈ st.faces, RecInv r

instance (st : DBState) : Decidable (FaceInv st) := by
  unfold FaceInv; exact List.decidableBAll _ _

/-! ### Computation lemmas for the handler outcomes -/

lemma verify_state_eq (st : DBState) (ok : Bool) (p ph : Nat) :
    (verify_person_on_photo st ok p ph).state =
      { st with
        faces := st.faces.map
          (fun r => if faceMatch p ph r then setVerifiedRow r else r) } := by
  simp only [verify_person_on_photo]
  split_ifs <;> rfl

lemma verify_result_eq (st : DBState) (ok : Bool) (p ph : Nat) :
    (verify_person_on_photo st ok p ph).result =
      if (st.faces.filter (faceMatch p ph)).isEmpty then ApiResp.error 404
      else if ok then ApiResp.ok true else ApiResp.error 500 := by
  simp only [verify_person_on_photo]
  split_ifs <;> rfl

lemma verify_rebuilds_eq (st : DBState) (ok : Bool) (p ph : Nat) :
    (verify_person_on_photo st ok p ph).rebuilds =
      if (st.faces.filter (faceMatch p ph)).isEmpty then 0 else 1 := by
  simp only [verify_person_on_photo]
  split_ifs <;> rfl

lemma batch_state_eq (st : DBState) (ok : Bool) (p : Nat) (phs : List Nat) :
    (batch_verify_person_on_photos st ok p phs).state =
      if phs.isEmpty then st
      else
        { st with
          faces := st.faces.map
            (fun r => if batchMatch p phs r then setVerifiedRow r else r) } := by
  simp only [batch_verify_person_on_photos]
  split_ifs <;> rfl

lemma batch_result_eq (st : DBState) (p : Nat) (phs : List Nat) :
    (batch_verify_person_on_photos st true p phs).result =
      ApiResp.ok
        (if phs.isEmpty then 0 else (st.faces.filter (batchMatch p phs)).length) := by
  simp only [batch_verify_person_on_photos]
  split_ifs <;> rfl

lemma batch_updates_eq (st : DBState) (ok : Bool) (p : Nat) (phs : List Nat) :
    (batch_verify_person_on_photos st ok p phs).updates =
      if phs.isEmpty then 0 else 1 := by
  simp only [batch_verify_person_on_photos]
  split_ifs <;> rfl

lemma batch_rebuilds_eq (st : DBState) (ok : Bool) (p : Nat) (phs : List Nat) :
    (batch_verify_person_on_photos st ok p phs).rebuilds =
      if phs.isEmpty then 0
      else if 0 < (st.faces.filter (batchMatch p phs)).length then 1 else 0 := by
  simp only [batch_verify_person_on_photos]
  split_ifs <;> rfl

lemma unlink_state_eq (st : DBState) (ok : Bool) (p ph : Nat) :
    (unlink_person_from_photo st ok p ph).state =
      { st with
        faces := st.faces.map
          (fun r => if faceMatch p ph r then clearRow r else r) } := by
  simp only [unlink_person_from_photo]
  split_ifs <;> rfl

lemma unlink_result_eq (st : DBState) (p ph : Nat) :
    (unlink_person_from_photo st true p ph).result =
      ApiResp.ok ((st.faces.filter (faceMatch p ph)).length) := by
  simp only [unlink_person_from_photo]
  split_ifs <;> rfl

lemma unlink_rebuilds_eq (st : DBState) (ok : Bool) (p ph : Nat) :
    (unlink_person_from_photo st ok p ph).rebuilds =
      if 0 < (st.faces.filter (faceMatch p ph)).length then 1 else 0 := by
  simp only [unlink_person_from_photo]
  split_ifs <;> rfl

lemma delete_result_eq (st : DBState) (p : Nat) :
    (delete_person st true p).result =
      if st.persons.contains p then ApiResp.ok () else ApiResp.error 404 := by
  by_cases h : p ∈ st.persons <;> simp [delete_person, db_delete_person, h]

lemma delete_rebuilds_eq (st : DBState) (ok : Bool) (p : Nat) :
    (delete_person st ok p).rebuilds = if st.persons.contains p then 1 else 0 := by
  by_cases h : p ∈ st.persons <;>
    cases ok <;> simp [delete_person, db_delete_person, h]

lemma create_result_eq (st : DBState) (npid : Nat) (fids : List Nat) :
    (create_person_from_cluster st npid fids).result =
      if clusterValid st fids then ApiResp.ok npid else ApiResp.error 500 := by
  simp only [create_person_from_cluster, db_create_person_from_cluster]
  split_ifs <;> rfl

lemma create_rebuilds_eq (st : DBState) (npid : Nat) (fids : List Nat) :
    (create_person_from_cluster st npid fids).rebuilds =
      if clusterValid st fids then 1 else 0 := by
  simp only [create_person_from_cluster, db_create_person_from_cluster]
  split_ifs <;> rfl

/-! ### List helper lemmas -/

lemma map_branch_id_of_no_match {α : Type} {l : List α} {q : α → Bool}
    {g : α → α} (h : ∀ r ∈ l, q r = false) :
    l.map (fun r => if q r then g r else r) = l := by
  induction l with
  | nil => rfl
  | cons a l ih =>
      have ha := h a (List.mem_cons_self a l)
      simp only [List.map_cons, ha, if_false, Bool.false_eq_true]
      rw [ih (fun r hr => h r (List.mem_cons_of_mem a hr))]

lemma getD_map_of_lt {α β : Type} (f : α → β) {l : List α} {i : Nat}
    (h : i < l.length) (d : α) (d' : β) :
    (l.map f).getD i d' = f (l.getD i d) := by
  rw [List.getD_eq_getElem?_getD, List.getD_eq_getElem?_getD, List.getElem?_map,
    List.getElem?_eq_getElem h]
  rfl

/-! ### Invariant helper lemmas -/

lemma recInv_setVerifiedRow {r : FaceRecord} {p : Nat}
    (h : (r.person_id == some p) = true) : RecInv (setVerifiedRow r) := by
  intro _
  rw [beq_iff_eq] at h
  exact ⟨by simp [setVerifiedRow, h], rfl⟩

lemma recInv_clearRow (r : FaceRecord) : RecInv (clearRow r) := by
  intro h
  simp [clearRow] at h

lemma faceInv_map_branch {l : List FaceRecord} {q : FaceRecord → Bool}
    {g : FaceRecord → FaceRecord} (h : ∀ r ∈ l, RecInv r)
    (hg : ∀ r ∈ l, q r = true → RecInv (g r)) :
    ∀ x ∈ l.map (fun r => if q r then g r else r), RecInv x := by
  intro x hx
  rcases List.mem_map.mp hx with ⟨r, hr, rfl⟩
  by_cases hq : q r = true
  · simpa [hq] using hg r hr hq
  · simpa [hq] using h r hr

/-! ### Sample states used by concrete theorems -/

/-- A store holding person 1 with one unverified face of that person on
photo 20. -/
def sampleSt : DBState :=
  { persons := [1], faces := [⟨10, 20, some 1, false, none⟩] }

/-- A store holding person 1 and no faces at all. -/
def emptyFacesSt : DBState := { persons := [1], faces := [] }

/-- C1.  The claim says a failure of the rebuild triggered after a committed
store update is not reported as a failure of the mutation.  The code disagrees:
both `delete_person` and `verify_person_on_photo` run the rebuild inside the
same `try` block, so a rebuild failure is converted to HTTP 500 even though the
store change (person removed resp. row verified) has already committed. -/
theorem rebuild_failure_reported_as_mutation_failure :
    (delete_person sampleSt false 1).result = ApiResp.error 500 ∧
    (delete_person sampleSt false 1).state.persons = [] ∧
    (delete_person sampleSt false 1).state.faces = [⟨10, 20, none, false, none⟩] ∧
    (verify_person_on_photo sampleSt false 1 20).result = ApiResp.error 500 ∧
    (verify_person_on_photo sampleSt false 1 20).state.faces =
      [⟨10, 20, some 1, true, some 1⟩] := by
  decide

/-- C2 counterexample.  An unlink call for a person with no face on the photo
returns success (`unlinked_count = 0`) yet triggers zero rebuilds, refuting
"every mutating operation, on success, triggers exactly one rebuild". -/
theorem successful_unlink_without_rebuild :
    (unlink_person_from_photo emptyFacesSt true 1 2).result = ApiResp.ok 0 ∧
    (unlink_person_from_photo emptyFacesSt true 1 2).rebuilds = 0 := by
  decide

/-- C2 amended.  Rebuild-count discipline of the mutating operations:
delete-person and verify-on-photo trigger exactly one rebuild on success
(success being equivalent to the person existing resp. a matching row
existing); batch-verify and unlink trigger exactly one rebuild when the update
matched at least one row and none otherwise; a successful
create-person-from-cluster entails exactly one rebuild (inside the
spec-modelled store call — the router itself issues none). -/
theorem mutation_rebuild_counts (st : DBState) (p ph npid : Nat)
    (phs fids : List Nat) :
    ((delete_person st true p).result = ApiResp.ok () ↔
      st.persons.contains p = true) ∧
    (delete_person st true p).rebuilds =
      (if st.persons.contains p then 1 else 0) ∧
    ((verify_person_on_photo st true p ph).result = ApiResp.ok true ↔
      (st.faces.filter (faceMatch p ph)).isEmpty = false) ∧
    (verify_person_on_photo st true p ph).rebuilds =
      (if (st.faces.filter (faceMatch p ph)).isEmpty then 0 else 1) ∧
    (batch_verify_person_on_photos st true p phs).rebuilds =
      (if phs.isEmpty then 0
       else if 0 < (st.faces.filter (batchMatch p phs)).length then 1 else 0) ∧
    (unlink_person_from_photo st true p ph).rebuilds =
      (if 0 < (st.faces.filter (faceMatch p ph)).length then 1 else 0) ∧
    ((create_person_from_cluster st npid fids).result = ApiResp.ok npid ↔
      clusterValid st fids = true) ∧
    (create_person_from_cluster st npid fids).rebuilds =
      (if clusterValid st fids then 1 else 0) := by
  refine ⟨?_, delete_rebuilds_eq st true p, ?_, verify_rebuilds_eq st true p ph,
    batch_rebuilds_eq st true p phs, unlink_rebuilds_eq st true p ph, ?_,
    create_rebuilds_eq st npid fids⟩
  · rw [delete_result_eq]
    cases h : st.persons.contains p <;> simp [h]
  · rw [verify_result_eq]
    cases h : (st.faces.filter (faceMatch p ph)).isEmpty <;> simp [h]
  · rw [create_result_eq]
    cases h : clusterValid st fids <;> simp [h]

/-- C3 counterexample.  A batch-verify call with a non-empty photo-id list in
which no photo carries a face of the person results in zero rebuild
executions, refuting "exactly one rebuild execution". -/
theorem nonempty_batch_verify_with_zero_rebuilds :
    ([5] : List Nat) ≠ [] ∧
    (batch_verify_person_on_photos emptyFacesSt true 1 [5]).result =
      ApiResp.ok 0 ∧
    (batch_verify_person_on_photos emptyFacesSt true 1 [5]).rebuilds ≠ 1 := by
  decide

/-- C3 amended.  For every non-empty list of photo ids, one batch-verify call
performs a single multi-row UPDATE and at most one rebuild execution — exactly
one when at least one row was updated, zero when the update matched no row;
never one rebuild per photo id. -/
theorem batch_verify_coalesces (st : DBState) (p : Nat) (phs : List Nat)
    (h : phs ≠ []) :
    (batch_verify_person_on_photos st true p phs).updates = 1 ∧
    (batch_verify_person_on_photos st true p phs).rebuilds =
      (if 0 < (st.faces.filter (batchMatch p phs)).length then 1 else 0) ∧
    (batch_verify_person_on_photos st true p phs).rebuilds ≤ 1 := by
  have he : phs.isEmpty = false := by simp [h]
  refine ⟨?_, ?_, ?_⟩
  · rw [batch_updates_eq, he]
    rfl
  · rw [batch_rebuilds_eq, he]
    rfl
  · rw [batch_rebuilds_eq, he]
    split_ifs <;> simp

/-- Witness for C3: batch-verifying person 1 on photo list `[20]` in
`sampleSt` issues one UPDATE and exactly one rebuild. -/
theorem batch_verify_coalesces_witness :
    (batch_verify_person_on_photos sampleSt true 1 [20]).updates = 1 ∧
    (batch_verify_person_on_photos sampleSt true 1 [20]).rebuilds =
      (if 0 < (sampleSt.faces.filter (batchMatch 1 [20])).length then 1 else 0) ∧
    (batch_verify_person_on_photos sampleSt true 1 [20]).rebuilds ≤ 1 :=
  batch_verify_coalesces sampleSt 1 [20] (by decide)

/-- C10.  A batch-verify call with an empty photo-id list succeeds immediately
with `verified_count = 0`, issuing no UPDATE, no rebuild, and leaving the
store untouched. -/
theorem batch_verify_empty_list_noop (st : DBState) (ok : Bool) (p : Nat) :
    (batch_verify_person_on_photos st ok p []).result = ApiResp.ok 0 ∧
    (batch_verify_person_on_photos st ok p []).state = st ∧
    (batch_verify_person_on_photos st ok p []).updates = 0 ∧
    (batch_verify_person_on_photos st ok p []).rebuilds = 0 :=
  ⟨rfl, rfl, rfl, rfl⟩

/-! ### Further helper lemmas -/

lemma all_no_match_of_filter_nil {l : List FaceRecord} {q : FaceRecord → Bool}
    (h : l.filter q = []) : ∀ r ∈ l, q r = false := fun r hr =>
  Bool.eq_false_iff.mpr (List.filter_eq_nil_iff.mp h r hr)

lemma faceMatch_person {p ph : Nat} {r : FaceRecord}
    (h : faceMatch p ph r = true) : (r.person_id == some p) = true := by
  unfold faceMatch at h
  exact ((Bool.and_eq_true _ _).mp h).1

lemma batchMatch_person {p : Nat} {phs : List Nat} {r : FaceRecord}
    (h : batchMatch p phs r = true) : (r.person_id == some p) = true := by
  unfold batchMatch at h
  exact ((Bool.and_eq_true _ _).mp h).1

lemma delete_state_eq (st : DBState) (ok : Bool) (p : Nat) :
    (delete_person st ok p).state =
      if st.persons.contains p then
        { persons := st.persons.filter (fun q => q != p),
          faces :=
            st.faces.map (fun r => if r.person_id == some p then clearRow r else r) }
      else st := by
  by_cases h : p ∈ st.persons <;>
    cases ok <;> simp [delete_person, db_delete_person, h]

lemma create_state_eq (st : DBState) (npid : Nat) (fids : List Nat) :
    (create_person_from_cluster st npid fids).state =
      if clusterValid st fids then
        { persons := npid :: st.persons,
          faces := st.faces.map
            (fun r =>
              if fids.contains r.id then
                { r with person_id := some npid, verified := true,
                         recognition_confidence := some 1 }
              else r) }
      else st := by
  simp only [create_person_from_cluster, db_create_person_from_cluster]
  split_ifs <;> rfl

/-- The default row used with `List.getD` in positional statements. -/
def defaultRec : FaceRecord := ⟨0, 0, none, false, none⟩

/-- A store holding no persons and no faces. -/
def emptySt : DBState := { persons := [], faces := [] }

/-- C4.  Every mutating handler preserves the FaceRecord invariant
(`verified` implies an assigned person and confidence `1.0`): the verify
operations set `verified = true` with confidence `1.0` only on rows whose
`person_id` equals the given person, unlink and the delete cascade clear
`verified` together with `person_id`, and cluster promotion assigns, verifies
and sets confidence together. -/
theorem handlers_preserve_face_invariant (st : DBState) (ok : Bool)
    (p ph npid : Nat) (phs fids : List Nat) (h : FaceInv st) :
    FaceInv (verify_person_on_photo st ok p ph).state ∧
    FaceInv (batch_verify_person_on_photos st ok p phs).state ∧
    FaceInv (unlink_person_from_photo st ok p ph).state ∧
    FaceInv (delete_person st ok p).state ∧
    FaceInv (create_person_from_cluster st npid fids).state := by
  refine ⟨?_, ?_, ?_, ?_, ?_⟩
  · rw [verify_state_eq]
    exact faceInv_map_branch h (fun r _ hq => recInv_setVerifiedRow (faceMatch_person hq))
  · rw [batch_state_eq]
    split_ifs
    · exact h
    · exact faceInv_map_branch h (fun r _ hq => recInv_setVerifiedRow (batchMatch_person hq))
  · rw [unlink_state_eq]
    exact faceInv_map_branch h (fun r _ _ => recInv_clearRow r)
  · rw [delete_state_eq]
    split_ifs
    · exact faceInv_map_branch h (fun r _ _ => recInv_clearRow r)
    · exact h
  · rw [create_state_eq]
    split_ifs
    · exact faceInv_map_branch h (fun r _ _ => fun _ => ⟨by simp, rfl⟩)
    · exact h

/-- Witness for C4: the invariant is preserved on `sampleSt` by all five
handlers at concrete arguments. -/
theorem handlers_preserve_face_invariant_witness :
    FaceInv (verify_person_on_photo sampleSt true 1 20).state ∧
    FaceInv (batch_verify_person_on_photos sampleSt true 1 [20]).state ∧
    FaceInv (unlink_person_from_photo sampleSt true 1 20).state ∧
    FaceInv (delete_person sampleSt true 1).state ∧
    FaceInv (create_person_from_cluster sampleSt 2 [10]).state :=
  handlers_preserve_face_invariant sampleSt true 1 20 2 [20] [10] (by decide)

/-- C5.  Every row the unlink UPDATE matches ends with `person_id = NULL`,
`verified = false`, `recognition_confidence = NULL`, and the call reports the
number of rows it cleared as `unlinked_count`. -/
theorem unlink_clears_matched_rows_and_reports_count (st : DBState) (ok : Bool)
    (p ph i : Nat) (h : i < st.faces.length)
    (hm : faceMatch p ph (st.faces.getD i defaultRec) = true) :
    ((unlink_person_from_photo st ok p ph).state.faces.getD i
        defaultRec).person_id = none ∧
    ((unlink_person_from_photo st ok p ph).state.faces.getD i
        defaultRec).verified = false ∧
    ((unlink_person_from_photo st ok p ph).state.faces.getD i
        defaultRec).recognition_confidence = none ∧
    (unlink_person_from_photo st true p ph).result =
      ApiResp.ok ((st.faces.filter (faceMatch p ph)).length) := by
  have hf : (unlink_person_from_photo st ok p ph).state.faces =
      st.faces.map (fun r => if faceMatch p ph r then clearRow r else r) := by
    rw [unlink_state_eq]
  refine ⟨?_, ?_, ?_, unlink_result_eq st p ph⟩ <;>
    · rw [hf, getD_map_of_lt _ h defaultRec defaultRec]
      simp only [List.getD_eq_getElem?_getD] at hm
      simp [hm, clearRow]

/-- Witness for C5: unlinking person 1 from photo 20 in `sampleSt` clears the
matched row and reports count 1. -/
theorem unlink_clears_matched_rows_witness :
    ((unlink_person_from_photo sampleSt true 1 20).state.faces.getD 0
        defaultRec).person_id = none ∧
    ((unlink_person_from_photo sampleSt true 1 20).state.faces.getD 0
        defaultRec).verified = false ∧
    ((unlink_person_from_photo sampleSt true 1 20).state.faces.getD 0
        defaultRec).recognition_confidence = none ∧
    (unlink_person_from_photo sampleSt true 1 20).result =
      ApiResp.ok ((sampleSt.faces.filter (faceMatch 1 20)).length) :=
  unlink_clears_matched_rows_and_reports_count sampleSt true 1 20 0 (by decide)
    (by decide)

/-- C6 counterexample.  Unlinking a person/photo pair that is entirely unknown
to the store does not fail with 404 NotFound; it returns success with
`unlinked_count = 0`. -/
theorem unlink_unknown_face_not_404 :
    (unlink_person_from_photo emptySt true 1 2).result ≠ ApiResp.error 404 ∧
    (unlink_person_from_photo emptySt true 1 2).result = ApiResp.ok 0 := by
  decide

/-- C6 amended.  Unlink never fails with NotFound: whenever the UPDATE matches
no row — be it because the pair is unknown or because the face is already
unassigned — the call succeeds as a no-op with `unlinked_count = 0`, no state
change and no rebuild. -/
theorem unlink_no_match_noop_success (st : DBState) (p ph : Nat)
    (h : st.faces.filter (faceMatch p ph) = []) :
    (unlink_person_from_photo st true p ph).result = ApiResp.ok 0 ∧
    (unlink_person_from_photo st true p ph).state = st ∧
    (unlink_person_from_photo st true p ph).rebuilds = 0 := by
  have hid := map_branch_id_of_no_match (g := clearRow)
    (all_no_match_of_filter_nil h)
  refine ⟨?_, ?_, ?_⟩
  · rw [unlink_result_eq, h]
    rfl
  · rw [unlink_state_eq, hid]
  · rw [unlink_rebuilds_eq, h]
    rfl

/-- Witness for C6: in a store where person 1 has no face on photo 2, unlink
returns success with count 0 and changes nothing. -/
theorem unlink_no_match_noop_success_witness :
    (unlink_person_from_photo emptyFacesSt true 1 2).result = ApiResp.ok 0 ∧
    (unlink_person_from_photo emptyFacesSt true 1 2).state = emptyFacesSt ∧
    (unlink_person_from_photo emptyFacesSt true 1 2).rebuilds = 0 :=
  unlink_no_match_noop_success emptyFacesSt 1 2 (by decide)

/-- C7.  Batch-verify returns the count of rows actually updated — only rows
whose `person_id` equals the given person and whose photo is in the list —
and never fails on that account: prepending a photo id on which the person
has no face leaves the reported count unchanged. -/
theorem batch_verify_skips_unlinked_photos (st : DBState) (p ph : Nat)
    (phs : List Nat)
    (h : ∀ r ∈ st.faces, ¬(r.person_id = some p ∧ r.photo_id = ph)) :
    (batch_verify_person_on_photos st true p phs).result =
      ApiResp.ok
        (if phs.isEmpty then 0
         else (st.faces.filter (batchMatch p phs)).length) ∧
    (batch_verify_person_on_photos st true p (ph :: phs)).result =
      ApiResp.ok ((st.faces.filter (batchMatch p phs)).length) := by
  refine ⟨batch_result_eq st p phs, ?_⟩
  rw [batch_result_eq]
  simp only [List.isEmpty_cons, Bool.false_eq_true, if_false]
  have : st.faces.filter (batchMatch p (ph :: phs)) =
      st.faces.filter (batchMatch p phs) := by
    apply List.filter_congr
    intro r hr
    by_cases hp : r.person_id = some p
    · have hph : r.photo_id ≠ ph := fun hh => h r hr ⟨hp, hh⟩
      simp [batchMatch, hp, List.contains_cons, hph]
    · have hb : (r.person_id == some p) = false := by
        simp [hp]
      simp [batchMatch, hb]
  rw [this]

/-- Witness for C7: `sampleSt` has no face of person 1 on photo 99, so
batch-verifying `[99, 20]` reports the same count as `[20]`. -/
theorem batch_verify_skips_unlinked_photos_witness :
    (batch_verify_person_on_photos sampleSt true 1 [20]).result =
      ApiResp.ok
        (if ([20] : List Nat).isEmpty then 0
         else (sampleSt.faces.filter (batchMatch 1 [20])).length) ∧
    (batch_verify_person_on_photos sampleSt true 1 (99 :: [20])).result =
      ApiResp.ok ((sampleSt.faces.filter (batchMatch 1 [20])).length) :=
  batch_verify_skips_unlinked_photos sampleSt 1 99 [20] (by decide)

/-- C8.  Deleting an absent person fails with 404 NotFound, performs no
rebuild and leaves the store unchanged. -/
theorem delete_person_absent_404 (st : DBState) (ok : Bool) (p : Nat)
    (h : st.persons.contains p = false) :
    (delete_person st ok p).result = ApiResp.error 404 ∧
    (delete_person st ok p).state = st ∧
    (delete_person st ok p).rebuilds = 0 := by
  have h' : ¬ p ∈ st.persons := by simpa using h
  refine ⟨?_, ?_, ?_⟩ <;> simp [delete_person, db_delete_person, h']

/-- Witness for C8: deleting person 7 from the empty store yields 404 with no
rebuild and no change. -/
theorem delete_person_absent_404_witness :
    (delete_person emptySt true 7).result = ApiResp.error 404 ∧
    (delete_person emptySt true 7).state = emptySt ∧
    (delete_person emptySt true 7).rebuilds = 0 :=
  delete_person_absent_404 emptySt true 7 (by decide)

/-- C9.  When the person has no face row on the photo, single-face verify
fails with 404 NotFound, modifies no row and performs no rebuild. -/
theorem verify_missing_face_404_noop (st : DBState) (ok : Bool) (p ph : Nat)
    (h : st.faces.filter (faceMatch p ph) = []) :
    (verify_person_on_photo st ok p ph).result = ApiResp.error 404 ∧
    (verify_person_on_photo st ok p ph).state = st ∧
    (verify_person_on_photo st ok p ph).rebuilds = 0 := by
  have hid := map_branch_id_of_no_match (g := setVerifiedRow)
    (all_no_match_of_filter_nil h)
  refine ⟨?_, ?_, ?_⟩
  · rw [verify_result_eq, h]
    rfl
  · rw [verify_state_eq, hid]
  · rw [verify_rebuilds_eq, h]
    rfl

/-- Witness for C9: person 2 has no face on photo 20 in `sampleSt`, so the
verify call yields 404 and changes nothing. -/
theorem verify_missing_face_404_noop_witness :
    (verify_person_on_photo sampleSt true 2 20).result = ApiResp.error 404 ∧
    (verify_person_on_photo sampleSt true 2 20).state = sampleSt ∧
    (verify_person_on_photo sampleSt true 2 20).rebuilds = 0 :=
  verify_missing_face_404_noop sampleSt true 2 20 (by decide)
